import Mathlib

/-!
# Verification of the paired-exam attempt flow (examination-system client)

Shallow embedding of the pairing/attempt state machine of the quiz client:
* `src/app/quiz/attempt/[attemptId]/page.tsx` — attempt runtime (fetch guard,
  countdown timer, submission),
* `src/app/quiz/start/[templateId]/page.tsx` — pairing initiator and joiner,
* `src/lib/api-client.ts` — REST wrappers (`attemptsAPI`),
* `src/lib/socket-client.ts` and `src/components/providers/socket-provider.tsx`
  — realtime channel adapter.

Pure data is translated directly; the stateful React handlers become explicit
state-passing functions over the page-state records, with API effects recorded
as explicit outcome values (navigation actions, issued-call counters, emitted
event lists).  JavaScript's `x || dflt` on optional strings is modelled by
`jsOrString`, `Math.floor` division on millisecond timestamps by `Int.fdiv`.
-/

/-- JS `x || dflt` on an optional string: `undefined`, `null` and `""` are all
falsy, anything else is returned as-is. -/
def jsOrString (x : Option String) (dflt : String) : String :=
  match x with
  | some s => if s = "" then dflt else s
  | none => dflt

/-- JS truthiness of an optional number: `undefined`/`null` and `0` are falsy.
Used for the `attemptData.userId && ...` ownership check. -/
def jsNumTruthy (x : Option Int) : Bool :=
  match x with
  | some n => n != 0
  | none => false

/-- Interpolation of a possibly-undefined number into a template literal. -/
def jsNumDisplay (x : Option Int) : String :=
  match x with
  | some n => toString n
  | none => "undefined"

/-- The two roles of a two-party communication exam
(`'sender' | 'receiver'` in the source). -/
inductive Role where
  | sender
  | receiver
  deriving DecidableEq, Repr

/-- A Next.js router navigation: `router.push(url)` or `router.replace(url)`. -/
inductive NavAction where
  | push (url : String)
  | replace (url : String)
  deriving DecidableEq, Repr

/-- One question slot of an attempt, as in interface `AttemptQuestion`
(only the fields the verified logic touches). -/
structure AttemptQuestion where
  slot_order : Nat
  content : String
  deriving DecidableEq, Repr

/-- Client-local answer fields for one slot (interface `AnswerState` values). -/
structure SlotAnswer where
  answerText : String
  answerCoordX : String
  answerCoordY : String
  deriving DecidableEq, Repr

/-- The payload of `attemptsAPI.getActiveAttemptDetails` on HTTP success
(fields read by `fetchAttemptDetails` in the attempt page). -/
structure ActiveAttemptData where
  userId : Option Int
  role : Option Role
  pairingCode : Option String
  templateName : Option String
  questions : Option (List AttemptQuestion)
  startTime : Option String
  timeLimit : Option Int
  status : Option String
  deriving DecidableEq, Repr

/-- The error thrown by `attemptsAPI.getActiveAttemptDetails`: on a 409
conflict the server-reported attempt status is attached to the error
(`customError.status = errorData.status`). -/
structure FetchFailure where
  status : Option String
  message : Option String
  deriving DecidableEq, Repr

/-- `initialAnswers[q.slot_order] = { answerText: '', answerCoordX: '', answerCoordY: '' }`
for each fetched question. -/
def initialAnswers (qs : List AttemptQuestion) : List (Nat × SlotAnswer) :=
  qs.map (fun q => (q.slot_order, { answerText := "", answerCoordX := "", answerCoordY := "" }))

/-- What one run of `fetchAttemptDetails` does: either redirect (terminal
attempt), install the fetched payload into the page state (together with the
freshly initialised answer map), or surface a load error. -/
inductive FetchOutcome where
  | redirect (nav : NavAction)
  | installed (answers : List (Nat × SlotAnswer)) (role : Option Role) (status : String)
      (startTime : Option String) (timeLimitSeconds : Int) (questions : List AttemptQuestion)
  | failed (msg : String)
  deriving DecidableEq, Repr

/-- `fetchAttemptDetails` from the attempt page, as a function of the result of
the `getActiveAttemptDetails` call.  `Except.ok none` models a null/empty
response body.  The ownership check, the terminal-status guard on the response
body, the 409-error terminal guard and the error fallback follow the source
line by line. -/
def fetchAttemptDetails (attemptId : Nat) (currentUserId : Int)
    (res : Except FetchFailure (Option ActiveAttemptData)) : FetchOutcome :=
  match res with
  | .ok none => .failed "无法加载此答题尝试，或权限不足。"
  | .ok (some d) =>
    if jsNumTruthy d.userId ∧ d.userId ≠ some currentUserId then
      .failed "无法加载此答题尝试，或权限不足。"
    else if d.status = some "completed" ∨ d.status = some "timed_out" then
      .redirect (.replace ("/quiz/result/" ++ toString attemptId))
    else
      .installed (initialAnswers (d.questions.getD []))
        d.role
        (jsOrString d.status "unknown")
        d.startTime
        (d.timeLimit.getD 0)
        (d.questions.getD [])
  | .error e =>
    if e.status = some "completed" ∨ e.status = some "timed_out" then
      .redirect (.replace ("/quiz/result/" ++ toString attemptId))
    else
      .failed (jsOrString e.message "加载答题数据时出错，请返回重试。")

/-- The fetch reported a terminal (`completed`/`timed_out`) status, either in
the response body (of an attempt passing the ownership check) or attached to
the 409-conflict error. -/
def terminalFetch (currentUserId : Int)
    (res : Except FetchFailure (Option ActiveAttemptData)) : Prop :=
  match res with
  | .ok none => False
  | .ok (some d) =>
      (d.status = some "completed" ∨ d.status = some "timed_out")
      ∧ ¬ (jsNumTruthy d.userId ∧ d.userId ≠ some currentUserId)
  | .error e => e.status = some "completed" ∨ e.status = some "timed_out"

instance (uid : Int) (res : Except FetchFailure (Option ActiveAttemptData)) :
    Decidable (terminalFetch uid res) :=
  match res with
  | .ok none => isFalse (fun h => h)
  | .ok (some _) => instDecidableAnd
  | .error _ => instDecidableOr

/-- The slice of `AttemptPageState` that drives submission, together with a
counter of issued `attemptsAPI.submitAttempt` calls. -/
structure SubmitState where
  role : Option Role
  isSubmitting : Bool
  error : Option String
  answers : List (Nat × SlotAnswer)
  submitCalls : Nat
  deriving DecidableEq, Repr

/-- The synchronous prefix of `handleSubmit` (everything before the `await`):
`if (pageState.isSubmitting || pageState.role === 'sender') return;` then set
the in-flight flag, clear the error and issue the submit call. -/
def handleSubmit (s : SubmitState) : SubmitState :=
  if s.isSubmitting ∨ s.role = some Role.sender then s
  else { s with isSubmitting := true, error := none, submitCalls := s.submitCalls + 1 }

/-- Response of `attemptsAPI.submitAttempt` (fields are unused by the page
beyond logging; the page navigates on success). -/
structure SubmitResponse where
  score : Option Int
  status : Option String
  deriving DecidableEq, Repr

/-- The continuation of `handleSubmit` after the `submitAttempt` call resolves:
success navigates to the result page; failure stores a user-visible error,
clears the in-flight flag and touches nothing else (in particular not the
answer map). -/
def handleSubmitResult (attemptId : Nat) (s : SubmitState)
    (res : Except (Option String) SubmitResponse) : SubmitState × Option NavAction :=
  match res with
  | .ok _ => (s, some (NavAction.push ("/quiz/result/" ++ toString attemptId)))
  | .error errMessage =>
      ({ s with
          error := some (jsOrString errMessage "提交答案时发生错误，请稍后重试。"),
          isSubmitting := false },
        none)

/-- The same guard and effects as `handleSubmit`, with React's closure capture
made explicit: the guard
`if (pageState.isSubmitting || pageState.role === 'sender') return;` reads the
`pageState` *snapshot* captured by the render (or the `setInterval` callback)
that created this invocation of the callback, while the functional
`setPageState` update and the issued `submitAttempt` call act on the live
state.  A freshly rendered trigger has `snapshot = current`
(`handleSubmit s = handleSubmitClosure s s`); the timeout scheduled by
`setTimeout(() => handleSubmit(true), 0)` inside the interval callback runs
with the snapshot of the render in which the interval was created, however the
live state has changed since. -/
def handleSubmitClosure (snapshot current : SubmitState) : SubmitState :=
  if snapshot.isSubmitting ∨ snapshot.role = some Role.sender then current
  else { current with
          isSubmitting := true, error := none, submitCalls := current.submitCalls + 1 }

/-- A concrete receiver-role attempt state with nothing in flight: the state
both the manual click and the timer's deferred trigger captured before the
race. -/
def staleRaceState : SubmitState :=
  { role := some Role.receiver, isSubmitting := false, error := none,
    answers := [], submitCalls := 0 }

/-- Initial countdown value computed once on load:
`Math.max(0, timeLimitSeconds - Math.floor((now - start) / 1000))`,
on millisecond timestamps. -/
def initialRemaining (startTimestamp nowTimestamp timeLimitSeconds : Int) : Int :=
  max 0 (timeLimitSeconds - Int.fdiv (nowTimestamp - startTimestamp) 1000)

/-- One `setInterval` tick of the countdown:
`prev <= 1` clears the interval and returns `0`, otherwise `prev - 1`.
The tick reads only the previous value — the server clock is not consulted
again. -/
def timerTick (prev : Int) : Int :=
  if prev ≤ 1 then 0 else prev - 1

/-- What one run of the timer `useEffect` sets up: nothing (guard fired), an
immediate auto-submit (already expired on this run), or a freshly derived
countdown with a new interval. -/
inductive TimerSetup where
  | cleared
  | immediateSubmit (remaining : Int)
  | ticking (remaining : Int)
  deriving DecidableEq, Repr

/-- One run of the timer `useEffect` in the attempt page.  The effect runs on
load and again whenever a dependency changes — its dependency list contains
`handleSubmit`, whose own dependency list contains the `answers` map, so every
keystroke re-runs it.  Each run guards on
`!startTime || timeLimitSeconds <= 0 || status !== 'inprogress' && status !== 'started'`
(clearing the countdown), and otherwise re-derives
`remainingSeconds = Math.max(0, timeLimitSeconds - Math.floor((now - start)/1000))`
from the server start timestamp and the current client clock; an expired value
schedules the auto-submit, otherwise a new one-second interval starts. -/
def timerEffectRun (startTime : Option Int) (timeLimitSeconds : Int) (status : String)
    (role : Option Role) (now : Int) : TimerSetup :=
  if startTime = none ∨ timeLimitSeconds ≤ 0
      ∨ (status ≠ "inprogress" ∧ status ≠ "started") then
    TimerSetup.cleared
  else
    let startTimestamp := startTime.getD 0
    let remainingSeconds := initialRemaining startTimestamp now timeLimitSeconds
    if remainingSeconds ≤ 0 ∧ role ≠ some Role.sender then
      TimerSetup.immediateSubmit remainingSeconds
    else
      TimerSetup.ticking remainingSeconds

/-- The countdown value a timer-effect run installed via `setTimeLeft`, if
any. -/
def TimerSetup.derivedRemaining : TimerSetup → Option Int
  | TimerSetup.cleared => none
  | TimerSetup.immediateSubmit r => some r
  | TimerSetup.ticking r => some r

/-- Payload of the `exam_completed` realtime event (`data.score`). -/
structure ExamCompletedData where
  score : Option Int
  deriving DecidableEq, Repr

/-- Effects the attempt runtime can perform in an event handler. -/
inductive RuntimeAction where
  | toastSuccess (msg : String)
  | navigate (nav : NavAction)
  | apiSubmit (attemptId : Nat)
  deriving DecidableEq, Repr

/-- The sender-side `exam_completed` listener: toast the score, then (after a
500 ms delay) `router.replace` to the result page.  No API call is made. -/
def examCompletedHandler (attemptId : Nat) (d : ExamCompletedData) : List RuntimeAction :=
  [ RuntimeAction.toastSuccess ("考试已完成！得分: " ++ jsNumDisplay d.score),
    RuntimeAction.navigate (NavAction.replace ("/quiz/result/" ++ toString attemptId)) ]

/-- Template summary fields used by the start page (`ApiTemplateSummary`). -/
structure TemplateInfo where
  base_type : String
  deriving DecidableEq, Repr

/-- The slice of `StartPageState` (plus ambient `user`/`templateId` validity)
that drives `handleStartAttempt`, with a counter of issued
`attemptsAPI.startAttempt` calls. -/
structure StartState where
  hasUser : Bool
  templateIdValid : Bool
  templateInfo : Option TemplateInfo
  role : Option Role
  isStartingAttempt : Bool
  startError : Option String
  startCalls : Nat
  deriving DecidableEq, Repr

/-- The synchronous prefix of `handleStartAttempt`:
`if (!user || !state.templateInfo || isNaN(templateId) || state.isStartingAttempt) return;`,
then the defensive communication/non-sender check, then set the in-flight flag
and issue the start call. -/
def handleStartAttempt (s : StartState) : StartState :=
  if ¬ s.hasUser ∨ s.templateInfo = none ∨ ¬ s.templateIdValid ∨ s.isStartingAttempt then s
  else
    match s.templateInfo with
    | none => s
    | some info =>
      if info.base_type = "communication" ∧ s.role ≠ some Role.sender then s
      else { s with isStartingAttempt := true, startError := none, startCalls := s.startCalls + 1 }

/-- Response body of `attemptsAPI.joinPairing`. -/
structure JoinResponse where
  attemptId : Option Nat
  message : Option String
  deriving DecidableEq, Repr

/-- The slice of `StartPageState` the joiner logic reads and writes. -/
structure JoinState where
  pairingCodeInput : String
  isJoiningPairing : Bool
  pairingError : Option String
  deriving DecidableEq, Repr

/-- Result of one run of `handleJoinPairing`: the final state slice, the
navigation performed (if any), and the normalized code actually sent to the
join endpoint (`none` when the empty-input guard fired and no request was
made). -/
structure JoinOutcome where
  state : JoinState
  nav : Option NavAction
  sentCode : Option String
  deriving DecidableEq, Repr

/-- JS `String.prototype.trim()`: strip leading and trailing whitespace. -/
def jsTrim (s : String) : String :=
  String.mk (((s.data.dropWhile Char.isWhitespace).reverse.dropWhile Char.isWhitespace).reverse)

/-- JS `String.prototype.toUpperCase()` (on the ASCII letters the pairing codes
use). -/
def jsToUpperCase (s : String) : String :=
  String.mk (s.data.map Char.toUpper)

/-- Error message produced by the `attemptsAPI.joinPairing` wrapper on HTTP
failure: `error.response?.data?.message || '配对失败，请检查配对码或稍后重试'`. -/
def joinPairingRequestError (serverMessage : Option String) : String :=
  jsOrString serverMessage "配对失败，请检查配对码或稍后重试"

/-- `handleJoinPairing` from the start page, as a function of the join-request
result (`Except.error` carries the server's error message field, if any).
Empty (post-trim) input short-circuits with an inline error; otherwise the code
is sent as `pairingCodeInput.trim().toUpperCase()`; a response carrying an
`attemptId` triggers `router.push('/quiz/attempt/' + id)` directly; a response
without one is re-thrown and lands in the same catch block as a request
failure, which stores the message and clears `isJoiningPairing`. -/
def handleJoinPairing (s : JoinState) (res : Except (Option String) JoinResponse) : JoinOutcome :=
  if jsTrim s.pairingCodeInput = "" then
    { state := { s with pairingError := some "请输入有效的配对码。" },
      nav := none, sentCode := none }
  else
    let sent := jsToUpperCase (jsTrim s.pairingCodeInput)
    let s1 : JoinState := { s with isJoiningPairing := true, pairingError := none }
    match res with
    | .ok r =>
      match r.attemptId with
      | some id =>
          { state := s1,
            nav := some (.push ("/quiz/attempt/" ++ toString id)),
            sentCode := some sent }
      | none =>
          { state := { s1 with
              pairingError := some (jsOrString
                (some (jsOrString r.message "配对失败，未能获取答题ID"))
                "加入配对失败，请重试。"),
              isJoiningPairing := false },
            nav := none, sentCode := some sent }
    | .error serverMessage =>
      { state := { s1 with
          pairingError := some (jsOrString
            (some (joinPairingRequestError serverMessage))
            "加入配对失败，请重试。"),
          isJoiningPairing := false },
        nav := none, sentCode := some sent }

/-- Payload of the `start_exam` realtime event. -/
structure StartExamData where
  attemptId : Option Nat
  deriving DecidableEq, Repr

/-- The receiver-side `start_exam` listener: with an `attemptId` it navigates
to the attempt page; without one it surfaces an error and clears the joining
flag. -/
def startExamHandler (s : JoinState) (d : StartExamData) : JoinState × Option NavAction :=
  match d.attemptId with
  | some id => (s, some (.push ("/quiz/attempt/" ++ toString id)))
  | none =>
      ({ s with
          pairingError := some "配对成功但无法开始考试，请重试。",
          isJoiningPairing := false },
        none)

/-- Payload of the `pairing_failed` realtime event. -/
structure PairingFailedData where
  message : Option String
  deriving DecidableEq, Repr

/-- The receiver-side `pairing_failed` listener:
`setState(pairingError := data.message || default, isJoiningPairing := false)`. -/
def pairingFailedHandler (s : JoinState) (d : PairingFailedData) : JoinState :=
  { s with
    pairingError := some (jsOrString d.message "配对失败，请检查配对码或稍后重试。"),
    isJoiningPairing := false }

/-- The socket instance as far as the emit guards observe it. -/
structure SocketInstance where
  connected : Bool
  deriving DecidableEq, Repr

/-- `emitSocketEvent` from `socket-client.ts`: emits only when the module-level
socket exists and is connected; otherwise logs and does nothing.  The returned
list is the sequence of events actually put on the wire. -/
def emitSocketEvent (currentSocket : Option SocketInstance) (event : String) : List String :=
  match currentSocket with
  | some sock => if sock.connected then [event] else []
  | none => []

/-- The socket context's `emit` from `socket-provider.tsx`: checks
`socketInstance && socketInstance.connected`, delegates to `emitSocketEvent`
and returns `true`; otherwise returns `false` without emitting. -/
def emit (socketInstance : Option SocketInstance) (event : String) :
    Bool × List String :=
  match socketInstance with
  | some sock =>
      if sock.connected then (true, emitSocketEvent (some sock) event)
      else (false, [])
  | none => (false, [])

/-! ## Helper lemmas -/

theorem jsOrString_ne_empty (x : Option String) (dflt : String) (h : dflt ≠ "") :
    jsOrString x dflt ≠ "" := by
  cases x with
  | none => simpa [jsOrString] using h
  | some s =>
    by_cases hs : s = ""
    · simpa [jsOrString, hs] using h
    · simp [jsOrString, hs]

theorem handleSubmit_eq_closure (s : SubmitState) :
    handleSubmit s = handleSubmitClosure s s := rfl

theorem handleStartAttempt_flagged (s : StartState) (h : s.isStartingAttempt = true) :
    handleStartAttempt s = s := by
  simp [handleStartAttempt, h]

theorem handleStartAttempt_iterate_flagged (n : Nat) (s : StartState)
    (h : s.isStartingAttempt = true) : Nat.iterate handleStartAttempt n s = s := by
  induction n with
  | zero => rfl
  | succ k ih =>
    show Nat.iterate handleStartAttempt k (handleStartAttempt s) = s
    rw [handleStartAttempt_flagged s h]
    exact ih

theorem handleStartAttempt_step (s : StartState) :
    handleStartAttempt s = s
    ∨ ((handleStartAttempt s).startCalls = s.startCalls + 1
        ∧ (handleStartAttempt s).isStartingAttempt = true) := by
  unfold handleStartAttempt
  split
  · exact Or.inl rfl
  · split
    · exact Or.inl rfl
    · split
      · exact Or.inl rfl
      · exact Or.inr ⟨rfl, rfl⟩

theorem timerTick_of_nonneg (r : Int) (h : 0 ≤ r) :
    timerTick r = max 0 (r - 1) := by
  unfold timerTick
  split <;> omega

theorem timerTick_iterate (k : Nat) (r : Int) (h : 0 ≤ r) :
    Nat.iterate timerTick k r = max 0 (r - k) := by
  induction k generalizing r with
  | zero => simpa using (max_eq_right h).symm
  | succ m ih =>
    show Nat.iterate timerTick m (timerTick r) = max 0 (r - (m + 1 : Nat))
    rw [timerTick_of_nonneg r h, ih _ (le_max_left 0 (r - 1))]
    push_cast
    omega

/-! ## Claim theorems -/

/-- C1: for every attempt whose fetched status is `completed` or `timed_out`
(reported either in the fetch response body — for an attempt passing the
ownership check — or via the 409-conflict error path), `fetchAttemptDetails`
redirects to `/quiz/result/{attemptId}` with `router.replace` and never
installs any answer state, question payload or timer inputs (the outcome is
never `installed`). -/
theorem terminal_attempt_redirects (attemptId : Nat) (uid : Int)
    (res : Except FetchFailure (Option ActiveAttemptData))
    (h : terminalFetch uid res) :
    fetchAttemptDetails attemptId uid res
      = .redirect (.replace ("/quiz/result/" ++ toString attemptId))
    ∧ ∀ a r st t l q, fetchAttemptDetails attemptId uid res ≠ .installed a r st t l q := by
  have hred : fetchAttemptDetails attemptId uid res
      = .redirect (.replace ("/quiz/result/" ++ toString attemptId)) := by
    cases res with
    | error e =>
      simp only [terminalFetch] at h
      simp only [fetchAttemptDetails]
      rw [if_pos h]
    | ok o =>
      cases o with
      | none =>
        simp only [terminalFetch] at h
      | some d =>
        simp only [terminalFetch] at h
        simp only [fetchAttemptDetails]
        rw [if_neg h.2, if_pos h.1]
  refine ⟨hred, ?_⟩
  intro a r st t l q hc
  rw [hred] at hc
  exact FetchOutcome.noConfusion hc

/-- Witness for C1 at a concrete 409-conflict fetch error carrying
status `completed`. -/
theorem terminal_attempt_redirects_witness :
    fetchAttemptDetails 5 1 (Except.error { status := some "completed", message := none })
      = .redirect (.replace ("/quiz/result/" ++ toString 5)) :=
  (terminal_attempt_redirects 5 1
    (Except.error { status := some "completed", message := none }) (by decide)).1

/-- C2 (code bug): the claim — and the source's own comment
`防止重复提交` on the guard — say a second trigger observes the in-flight flag
and returns without a second `submitAttempt` call.  The code violates this in
the raced scenario the claim covers: from `staleRaceState` (receiver, nothing
in flight), the countdown's interval callback schedules
`setTimeout(() => handleSubmit(true), 0)` whose closure captured
`isSubmitting = false`; a manual click then runs a fresh trigger
(`snapshot = current = staleRaceState`), issuing call #1 and setting the live
flag; the pending timeout then runs with its stale snapshot, whose flag is
still `false`, so its guard passes and a second call is issued:
`submitCalls` reaches 2 even though the live flag was already `true`. -/
theorem submit_double_fire_stale_closure :
    (handleSubmitClosure staleRaceState staleRaceState).isSubmitting = true
    ∧ (handleSubmitClosure staleRaceState staleRaceState).submitCalls = 1
    ∧ (handleSubmitClosure staleRaceState
        (handleSubmitClosure staleRaceState staleRaceState)).submitCalls = 2 := by
  decide

/-- C3 counterexample: the countdown is re-derived from the server clock after
load.  The timer effect's dependency list contains `handleSubmit`, and
`handleSubmit`'s dependency list contains the `answers` map, so every
keystroke tears the interval down and re-runs the effect.  Concretely, with
server start `T0 = 0` ms and limit 100 s: the load-time run at client clock
0 ms derives 100 s; after three delivered local ticks the decremented value is
97 s; a keystroke at client clock 10000 ms re-runs the effect, which derives
90 s from the server start time — not the locally decremented 97 s — refuting
"decremented locally by one per one-second tick, and not re-derived from the
server clock again". -/
theorem countdown_rederived_on_keystroke :
    timerEffectRun (some 0) 100 "inprogress" (some Role.receiver) 0
      = TimerSetup.ticking 100
    ∧ Nat.iterate timerTick 3 (100 : Int) = 97
    ∧ timerEffectRun (some 0) 100 "inprogress" (some Role.receiver) 10000
      = TimerSetup.ticking 90
    ∧ (90 : Int) ≠ 97 := by
  decide

/-- C3 (amended): on *each* run of the timer effect — on load and on every
dependency-driven re-run (in particular every keystroke, via
`handleSubmit`'s `answers` dependency) — with a start time present, a positive
limit `L` and an `inprogress`/`started` status, the installed remaining time
is re-derived as `max 0 (L - floor((now - T0) / 1000))` from the server start
time and the current client clock; it is never negative, and between effect
runs it is decremented locally by one per one-second tick, clamped at zero:
after `k` ticks the value is `max 0 (derived - k)`. -/
theorem countdown_effect_run_derivation (T0 L now : Int) (role : Option Role)
    (status : String) (hL : 0 < L)
    (hst : status = "inprogress" ∨ status = "started") :
    TimerSetup.derivedRemaining (timerEffectRun (some T0) L status role now)
        = some (initialRemaining T0 now L)
    ∧ initialRemaining T0 now L = max 0 (L - Int.fdiv (now - T0) 1000)
    ∧ 0 ≤ initialRemaining T0 now L
    ∧ ∀ k : Nat, Nat.iterate timerTick k (initialRemaining T0 now L)
        = max 0 (initialRemaining T0 now L - k) := by
  have hcond : ¬ ((some T0 : Option Int) = none ∨ L ≤ 0
      ∨ (status ≠ "inprogress" ∧ status ≠ "started")) := by
    intro hor
    rcases hor with h1 | h2 | ⟨h3, h4⟩
    · exact Option.noConfusion h1
    · omega
    · rcases hst with h | h
      · exact h3 h
      · exact h4 h
  refine ⟨?_, rfl, le_max_left 0 _, fun k => timerTick_iterate k _ (le_max_left 0 _)⟩
  unfold timerEffectRun
  rw [if_neg hcond]
  show TimerSetup.derivedRemaining
      (if initialRemaining T0 now L ≤ 0 ∧ role ≠ some Role.sender then
        TimerSetup.immediateSubmit (initialRemaining T0 now L)
      else TimerSetup.ticking (initialRemaining T0 now L))
    = some (initialRemaining T0 now L)
  split <;> rfl

/-- Witness for the amended C3: a re-run at client clock 10000 ms with start
0 ms and limit 100 s installs the freshly derived value. -/
theorem countdown_effect_run_derivation_witness :
    TimerSetup.derivedRemaining
        (timerEffectRun (some 0) 100 "inprogress" (some Role.receiver) 10000)
      = some (initialRemaining 0 10000 100) :=
  (countdown_effect_run_derivation 0 100 10000 (some Role.receiver) "inprogress"
    (by decide) (Or.inl rfl)).1

/-- C4 counterexample: with the code input `"AB12CD"`, a successful synchronous
`joinPairing` HTTP response carrying `attemptId = 7` makes `handleJoinPairing`
itself perform `router.push("/quiz/attempt/7")` — the joiner enters the attempt
runtime on the HTTP response alone, with no `start_exam` realtime event
involved, contradicting the claim that the realtime signal is the only
navigation trigger. -/
theorem join_navigates_on_http_response :
    (handleJoinPairing
        { pairingCodeInput := "AB12CD", isJoiningPairing := false, pairingError := none }
        (Except.ok { attemptId := some 7, message := none })).nav
      = some (NavAction.push "/quiz/attempt/7") := by decide

/-- C4 (amended): on a successful `joinPairing` HTTP response carrying an
`attemptId`, the joiner navigates to `/quiz/attempt/{attemptId}` immediately on
the synchronous response; the `start_exam` realtime event is an additional,
independent navigation trigger to the same page, not the sole authoritative
one. -/
theorem join_navigation_triggers (s : JoinState) (r : JoinResponse) (id : Nat)
    (d : StartExamData) (hne : ¬ jsTrim s.pairingCodeInput = "")
    (hid : r.attemptId = some id) (hd : d.attemptId = some id) :
    (handleJoinPairing s (Except.ok r)).nav
        = some (NavAction.push ("/quiz/attempt/" ++ toString id))
    ∧ (startExamHandler s d).2
        = some (NavAction.push ("/quiz/attempt/" ++ toString id)) := by
  constructor
  · unfold handleJoinPairing
    rw [if_neg hne]
    simp only [hid]
  · unfold startExamHandler
    simp only [hd]

/-- Witness for the amended C4 at concrete inputs. -/
theorem join_navigation_triggers_witness :
    (handleJoinPairing
        { pairingCodeInput := "AB12CD", isJoiningPairing := false, pairingError := none }
        (Except.ok { attemptId := some 7, message := none })).nav
      = some (NavAction.push ("/quiz/attempt/" ++ toString 7)) :=
  (join_navigation_triggers
    { pairingCodeInput := "AB12CD", isJoiningPairing := false, pairingError := none }
    { attemptId := some 7, message := none } 7 { attemptId := some 7 }
    (by decide) rfl rfl).1

/-- C5: whenever the join request is actually sent (non-empty post-trim input),
the pairing code on the wire is exactly `pairingCodeInput.trim().toUpperCase()`
— surrounding whitespace stripped and letters uppercased. -/
theorem join_code_normalized (s : JoinState) (res : Except (Option String) JoinResponse)
    (hne : ¬ jsTrim s.pairingCodeInput = "") :
    (handleJoinPairing s res).sentCode = some (jsToUpperCase (jsTrim s.pairingCodeInput)) := by
  unfold handleJoinPairing
  rw [if_neg hne]
  rcases res with m | r
  · rfl
  · cases hid : r.attemptId <;> simp only [hid]

/-- Witness for C5: the lowercase input `"ab12cd"` is sent as `"AB12CD"`. -/
theorem join_code_normalized_witness :
    (handleJoinPairing
        { pairingCodeInput := "ab12cd", isJoiningPairing := false, pairingError := none }
        (Except.ok { attemptId := some 7, message := none })).sentCode
      = some "AB12CD" := by
  have h := join_code_normalized
    { pairingCodeInput := "ab12cd", isJoiningPairing := false, pairingError := none }
    (Except.ok { attemptId := some 7, message := none }) (by decide)
  rw [h]
  decide

/-- C6: while a `startAttempt` call is pending (`isStartingAttempt = true`),
any further invocation of `handleStartAttempt` returns without issuing a
request (the state is untouched); and from any state, any number of
consecutive invocations issues at most one `startAttempt` call, so two
concurrent start triggers never produce two attempts. -/
theorem start_attempt_inflight_guard (s : StartState) (h : s.isStartingAttempt = true) :
    handleStartAttempt s = s
    ∧ ∀ (t : StartState) (n : Nat),
        (Nat.iterate handleStartAttempt n t).startCalls ≤ t.startCalls + 1 := by
  refine ⟨handleStartAttempt_flagged s h, ?_⟩
  intro t n
  induction n generalizing t with
  | zero => exact Nat.le_succ t.startCalls
  | succ k ih =>
    show (Nat.iterate handleStartAttempt k (handleStartAttempt t)).startCalls ≤ t.startCalls + 1
    rcases handleStartAttempt_step t with heq | ⟨hc, hf⟩
    · rw [heq]; exact ih t
    · rw [handleStartAttempt_iterate_flagged k _ hf, hc]

/-- Witness for C6 at a concrete pending state: a second trigger changes
nothing. -/
theorem start_attempt_inflight_guard_witness :
    handleStartAttempt
        { hasUser := true, templateIdValid := true,
          templateInfo := some { base_type := "communication" },
          role := some Role.sender, isStartingAttempt := true,
          startError := none, startCalls := 1 }
      = { hasUser := true, templateIdValid := true,
          templateInfo := some { base_type := "communication" },
          role := some Role.sender, isStartingAttempt := true,
          startError := none, startCalls := 1 } :=
  (start_attempt_inflight_guard
    { hasUser := true, templateIdValid := true,
      templateInfo := some { base_type := "communication" },
      role := some Role.sender, isStartingAttempt := true,
      startError := none, startCalls := 1 } rfl).1

/-- C7: a `pairing_failed` realtime event received while `isJoiningPairing` is
true transitions the joiner to `isJoiningPairing = false` with a non-empty
error message stored in `pairingError`, so the join UI becomes editable again
and is never left stuck in the loading state. -/
theorem pairing_failed_resets_joining (s : JoinState) (d : PairingFailedData)
    (_h : s.isJoiningPairing = true) :
    (pairingFailedHandler s d).isJoiningPairing = false
    ∧ ∃ m, (pairingFailedHandler s d).pairingError = some m ∧ m ≠ "" := by
  refine ⟨rfl, jsOrString d.message "配对失败，请检查配对码或稍后重试。", rfl, ?_⟩
  exact jsOrString_ne_empty d.message _ (by decide)

/-- Witness for C7 at a concrete joining state and an event with no message
field. -/
theorem pairing_failed_resets_joining_witness :
    (pairingFailedHandler
        { pairingCodeInput := "AB12CD", isJoiningPairing := true, pairingError := none }
        { message := none }).isJoiningPairing = false :=
  (pairing_failed_resets_joining
    { pairingCodeInput := "AB12CD", isJoiningPairing := true, pairingError := none }
    { message := none } rfl).1

/-- C8: for the sender role, the `exam_completed` listener redirects (via
`router.replace`) to `/quiz/result/{attemptId}` and performs no API call — in
particular no `apiSubmit` action occurs — and the sender's own `handleSubmit`
is a no-op that issues no submit call. -/
theorem sender_exam_completed_redirect (s : SubmitState) (attemptId : Nat)
    (d : ExamCompletedData) (h : s.role = some Role.sender) :
    RuntimeAction.navigate (NavAction.replace ("/quiz/result/" ++ toString attemptId))
        ∈ examCompletedHandler attemptId d
    ∧ (∀ a, RuntimeAction.apiSubmit a ∉ examCompletedHandler attemptId d)
    ∧ handleSubmit s = s := by
  refine ⟨?_, ?_, ?_⟩
  · simp [examCompletedHandler]
  · intro a
    simp [examCompletedHandler]
  · simp [handleSubmit, h]

/-- Witness for C8 at a concrete sender state: `handleSubmit` leaves the state
(and thus the submit-call count) unchanged. -/
theorem sender_exam_completed_redirect_witness :
    handleSubmit
        { role := some Role.sender, isSubmitting := false, error := none,
          answers := [], submitCalls := 0 }
      = { role := some Role.sender, isSubmitting := false, error := none,
          answers := [], submitCalls := 0 } :=
  (sender_exam_completed_redirect
    { role := some Role.sender, isSubmitting := false, error := none,
      answers := [], submitCalls := 0 }
    3 { score := some 80 } rfl).2.2

/-- C9: when the `submitAttempt` call fails, the runtime stores a non-empty
user-visible error message, clears the in-flight flag (`isSubmitting = false`)
so submission is re-enabled, leaves the per-slot answer map exactly as it was,
and performs no navigation. -/
theorem submit_failure_preserves_state (attemptId : Nat) (s : SubmitState)
    (errMessage : Option String) :
    (handleSubmitResult attemptId s (Except.error errMessage)).1.isSubmitting = false
    ∧ (∃ m, (handleSubmitResult attemptId s (Except.error errMessage)).1.error = some m
        ∧ m ≠ "")
    ∧ (handleSubmitResult attemptId s (Except.error errMessage)).1.answers = s.answers
    ∧ (handleSubmitResult attemptId s (Except.error errMessage)).2 = none := by
  refine ⟨rfl, ⟨jsOrString errMessage "提交答案时发生错误，请稍后重试。", rfl, ?_⟩, rfl, rfl⟩
  exact jsOrString_ne_empty errMessage _ (by decide)

/-- C10: the socket context's `emit` returns `true` exactly when a socket
instance exists and is connected; when it returns `false` nothing is emitted,
and when it returns `true` exactly the requested event is emitted. -/
theorem emit_guarded (socketInstance : Option SocketInstance) (event : String) :
    ((emit socketInstance event).1 = true
        ↔ ∃ sock, socketInstance = some sock ∧ sock.connected = true)
    ∧ ((emit socketInstance event).1 = false → (emit socketInstance event).2 = [])
    ∧ ((emit socketInstance event).1 = true → (emit socketInstance event).2 = [event]) := by
  cases socketInstance with
  | none => simp [emit]
  | some sock =>
    by_cases h : sock.connected = true
    · simp [emit, emitSocketEvent, h]
    · simp [emit, emitSocketEvent, h]

/-- Witness for C10: on a connected socket `emit` puts exactly the event on the
wire. -/
theorem emit_guarded_witness :
    (emit (some { connected := true }) "join_pairing").2 = ["join_pairing"] :=
  (emit_guarded (some { connected := true }) "join_pairing").2.2 (by decide)

/-- Witness for C9 at a concrete failing submit with no error message: the
answer map survives unchanged. -/
theorem submit_failure_preserves_state_witness :
    (handleSubmitResult 3
        { role := some Role.receiver, isSubmitting := true, error := none,
          answers := [(1, { answerText := "abc", answerCoordX := "", answerCoordY := "" })],
          submitCalls := 1 }
        (Except.error none)).1.answers
      = [(1, { answerText := "abc", answerCoordX := "", answerCoordY := "" })] :=
  (submit_failure_preserves_state 3
    { role := some Role.receiver, isSubmitting := true, error := none,
      answers := [(1, { answerText := "abc", answerCoordX := "", answerCoordY := "" })],
      submitCalls := 1 }
    none).2.2.1
